import Mathlib

/-!
Shallow embedding of the `recipe-to-markdown` repository's markdown
synthesis pipeline (source files `recipe2md.py` and `pure_recipe.py`).

Python strings are modelled as Lean `String` (lists of unicode scalar
values).  The Python builtin string methods used by the source
(`str.lower`, `str.title`, `str.capitalize`, `str.isspace`, `str.split`,
`str.replace`, `str.join`, `textwrap.dedent`) are embedded below as
executable Lean functions over `List Char`.  The case-mapping functions
model the ASCII and Latin-1 letter repertoire (the only repertoire
exercised by the repository's recipe titles and nutrient keys); code
points outside that repertoire are left unchanged, and the two Latin-1
letters without a single-scalar case partner in Latin-1 (ß, ÿ) are left
fixed by the upper-case map.
-/

namespace RecipeToMd

/-- Uppercase ASCII letter test, `A`–`Z`. -/
def isUpperAscii (c : Char) : Bool :=
  65 ≤ c.toNat && c.toNat ≤ 90

/-- Lowercase ASCII letter test, `a`–`z`. -/
def isLowerAscii (c : Char) : Bool :=
  97 ≤ c.toNat && c.toNat ≤ 122

/-- Uppercase Latin-1 letter test, `À`–`Þ` without the multiplication sign. -/
def isUpperLatin1 (c : Char) : Bool :=
  (192 ≤ c.toNat && c.toNat ≤ 214) || (216 ≤ c.toNat && c.toNat ≤ 222)

/-- Lowercase Latin-1 letter test, `à`–`þ` without the division sign
(`ß` and `ÿ` are excluded: they have no upper-case partner in Latin-1). -/
def isLowerLatin1 (c : Char) : Bool :=
  (224 ≤ c.toNat && c.toNat ≤ 246) || (248 ≤ c.toNat && c.toNat ≤ 254)

/-- Model of Python's per-character lower-case map on the ASCII/Latin-1
letter repertoire; other code points are left unchanged. -/
def pyCharLower (c : Char) : Char :=
  if isUpperAscii c || isUpperLatin1 c then Char.ofNat (c.toNat + 32) else c

/-- Model of Python's per-character upper-case (and title-case, which agrees
with it on this repertoire) map; other code points are left unchanged. -/
def pyCharUpper (c : Char) : Char :=
  if isLowerAscii c || isLowerLatin1 c then Char.ofNat (c.toNat - 32) else c

/-- Cased characters of the modelled repertoire (Python's `iscased` on
ASCII/Latin-1 letters, minus the `ß`/`ÿ`/`µ`/ordinal oddities). -/
def isCased (c : Char) : Bool :=
  isUpperAscii c || isLowerAscii c || isUpperLatin1 c || isLowerLatin1 c

/-- Code points accepted by Python's `str.isspace` (the full CPython set). -/
def pySpaceCodes : List Nat :=
  [9, 10, 11, 12, 13, 28, 29, 30, 31, 32, 133, 160,
   0x1680, 0x2000, 0x2001, 0x2002, 0x2003, 0x2004, 0x2005, 0x2006,
   0x2007, 0x2008, 0x2009, 0x200A, 0x2028, 0x2029, 0x202F, 0x205F, 0x3000]

/-- Model of Python's `str.isspace` test for a single character. -/
def pyIsSpace (c : Char) : Bool :=
  decide (c.toNat ∈ pySpaceCodes)

/-- Concatenation of a list of strings (Python `"".join` / repeated `+=`). -/
def joinList : List String → String
  | [] => ""
  | s :: rest => s ++ joinList rest

/-- Model of Python's `sep.join(parts)`. -/
def pyJoin (sep : String) : List String → String
  | [] => ""
  | [s] => s
  | s :: rest => s ++ sep ++ pyJoin sep rest

/-- Model of Python's `s.split(sep)` for a one-character separator:
splits at every occurrence, keeping empty chunks; the result is never
empty (`"".split(".") == [""]`). -/
def splitOnChar (sep : Char) : List Char → List (List Char)
  | [] => [[]]
  | c :: rest =>
    match splitOnChar sep rest with
    | [] => [[]]
    | g :: gs => if c = sep then [] :: g :: gs else (c :: g) :: gs

/-- Model of Python's whitespace `s.split()` (no separator argument):
splits on runs of whitespace and drops empty chunks.  The accumulator
holds the characters of the current word in reverse. -/
def pySplitWsAux (cur : List Char) : List Char → List (List Char)
  | [] => if cur.isEmpty then [] else [cur.reverse]
  | c :: rest =>
    if pyIsSpace c then
      if cur.isEmpty then pySplitWsAux [] rest
      else cur.reverse :: pySplitWsAux [] rest
    else pySplitWsAux (c :: cur) rest

/-- Whitespace splitting of a character list, starting with no current word. -/
def pySplitWs (l : List Char) : List (List Char) :=
  pySplitWsAux [] l

/-- Fuel-driven worker for Python's `s.replace(pat, repl)`: replaces
non-overlapping occurrences left to right, one pass, no rescanning of the
replacement text.  Faithful for non-empty patterns (the only ones the
source uses); the fuel is the length of the scanned list, which suffices
because every step consumes at least one character. -/
def pyReplaceAux (pat repl : List Char) : Nat → List Char → List Char
  | 0, s => s
  | _ + 1, [] => []
  | fuel + 1, c :: rest =>
    if pat.isPrefixOf (c :: rest) then
      repl ++ pyReplaceAux pat repl fuel (List.drop pat.length (c :: rest))
    else
      c :: pyReplaceAux pat repl fuel rest

/-- Model of Python's `s.replace(pat, repl)` (all occurrences, one pass). -/
def pyReplace (s pat repl : String) : String :=
  ⟨pyReplaceAux pat.data repl.data s.data.length s.data⟩

/-- Model of Python's `str.capitalize`: first character title-cased (equal
to upper-cased on the modelled repertoire), all remaining characters
lower-cased. -/
def pyCapitalize (s : String) : String :=
  match s.data with
  | [] => ""
  | c :: rest => ⟨pyCharUpper c :: rest.map pyCharLower⟩

/-- Worker for Python's `str.title`: a cased character that follows a
non-cased character is title-cased, a cased character that follows a cased
character is lower-cased, non-cased characters pass through; the flag
records whether the previous character was cased. -/
def pyTitleAux (prevCased : Bool) : List Char → List Char
  | [] => []
  | c :: rest =>
    (if isCased c then (if prevCased then pyCharLower c else pyCharUpper c) else c)
      :: pyTitleAux (isCased c) rest

/-- Model of Python's `str.title`. -/
def pyTitle (s : String) : String :=
  ⟨pyTitleAux false s.data⟩

/-- Space-or-tab test used by `textwrap.dedent`'s regexes (`[ \t]`). -/
def isIndentChar (c : Char) : Bool :=
  c = ' ' || c = '\t'

/-- Longest common prefix of two character lists; `textwrap.dedent`'s
margin computation reduces to folding this over the line indents. -/
def lcp : List Char → List Char → List Char
  | [], _ => []
  | _, [] => []
  | a :: as, b :: bs => if a = b then a :: lcp as bs else []

/-- Line consisting solely of whitespace, in the sense of `textwrap.dedent`'s
`^[ \t]+$` regex (at least one character, all spaces or tabs). -/
def isWsOnlyLine (l : List Char) : Bool :=
  !l.isEmpty && l.all isIndentChar

/-- Line that contributes an indent to `textwrap.dedent`'s margin: its
`(^[ \t]*)(?:[^ \t\n])` regex requires some character beyond the leading
space/tab run (no `\n` can occur once the text is split into lines). -/
def hasContent (l : List Char) : Bool :=
  l.any (fun c => !isIndentChar c)

/-- Join lines back with newline separators (inverse of splitting on `\n`). -/
def joinLines : List (List Char) → List Char
  | [] => []
  | [l] => l
  | l :: rest => l ++ '\n' :: joinLines rest

/-- Model of Python's `textwrap.dedent`: blank out whitespace-only lines,
compute the margin as the longest common space/tab prefix of the remaining
lines, and strip that margin from the front of every line carrying it. -/
def pyDedent (s : String) : String :=
  let lines := splitOnChar '\n' s.data
  let lines := lines.map (fun l => if isWsOnlyLine l then [] else l)
  let indents := (lines.filter hasContent).map (fun l => l.takeWhile isIndentChar)
  let margin := match indents with
    | [] => []
    | i :: is => is.foldl lcp i
  ⟨joinLines (lines.map (fun l =>
    if !margin.isEmpty && margin.isPrefixOf l then l.drop margin.length else l))⟩

/-- Worker for the inner regex substitution
`re.sub("([A-Z]+)", r" \1", word)` of `camel_case_splitter`: a space is
inserted before every maximal run of consecutive uppercase ASCII letters,
i.e. before an uppercase character whose predecessor is not uppercase.
The flag records whether the previous character was uppercase. -/
def camelSubUpperAux (prevUpper : Bool) : List Char → List Char
  | [] => []
  | c :: rest =>
    if isUpperAscii c then
      (if prevUpper then [c] else [' ', c]) ++ camelSubUpperAux true rest
    else
      c :: camelSubUpperAux false rest

/-- Worker for the outer regex substitution
`re.sub("([A-Z][a-z]+)", r" \1", s)` of `camel_case_splitter`: scanning
left to right, every non-overlapping match starts exactly at an uppercase
ASCII letter immediately followed by a lowercase ASCII letter (a lowercase
character can never start a match, so matches cannot overlap such a
position), hence the substitution inserts a space before every such pair. -/
def camelSubCapAux : List Char → List Char
  | [] => []
  | [c] => [c]
  | c :: d :: rest =>
    if isUpperAscii c && isLowerAscii d then
      ' ' :: c :: camelSubCapAux (d :: rest)
    else
      c :: camelSubCapAux (d :: rest)

/-- Embedding of `camel_case_splitter` (identical in `recipe2md.py` and
`pure_recipe.py`):
`re.sub("([A-Z][a-z]+)", r" \1", re.sub("([A-Z]+)", r" \1", word)).split()`
joined with single spaces and passed through `str.capitalize`. -/
def camel_case_splitter (word : String) : String :=
  let split := pySplitWs (camelSubCapAux (camelSubUpperAux false word.data))
  pyCapitalize (pyJoin " " (split.map (fun l => (⟨l⟩ : String))))

/-- Embedding of `format_file_name` from `pure_recipe.py`: lower-case the
title, then replace every whitespace character of the result with `-`. -/
def format_file_name (recipe_title : String) : String :=
  ⟨(recipe_title.data.map pyCharLower).map (fun c => if pyIsSpace c then '-' else c)⟩

/-- Embedding of `format_title` from `recipe2md.py`.  The function body is
`scraper.title().replace(" ", "-")`; every call site passes a Python `str`,
so `.title()` is the builtin `str.title` title-casing method. -/
def format_title (title : String) : String :=
  pyReplace (pyTitle title) " " "-"

/-- Structured recipe data produced by the external extraction collaborator
(`recipe_scrapers`).  Fields mirror the scraper accessors used by
`generate_markdown`; the nutrient mapping is an insertion-ordered
association list, matching Python `dict` iteration order. -/
structure RecipeRecord where
  title : String
  ingredients : List String
  instructions_list : List String
  nutrients : List (String × String)
  yields : String
  total_time : Nat
  image : String

/-- Embedding of `scraper.image().split(".")[-1]` from `generate_markdown`:
the chunk after the last `.` of the image URL, or the whole URL when it
contains no `.` (Python's split always returns a non-empty list). -/
def image_file_extension (image : String) : String :=
  ⟨(splitOnChar '.' image.data).getLastD []⟩

/-- Twelve spaces: the common indentation of the f-string literal inside
`generate_markdown` that `textwrap.dedent` strips. -/
def indent12 : String := "            "

/-- The interpolated f-string literal of `generate_markdown` before
`textwrap.dedent` is applied: seven lines, each carrying the literal's
twelve-space indentation, ending with an explicit final newline. -/
def headerRaw (title category recipe_url image_filename yields : String)
    (total_time : Nat) : String :=
  indent12 ++ "---\n" ++
  indent12 ++ "title: " ++ pyCapitalize title ++ "\n" ++
  indent12 ++ "category: " ++ pyCapitalize category ++ "\n" ++
  indent12 ++ "source: " ++ recipe_url ++ "\n" ++
  indent12 ++ "image: " ++ image_filename ++ "\n" ++
  indent12 ++ "size: " ++ yields ++ "\n" ++
  indent12 ++ "time: " ++ toString total_time ++ " mins\n"

/-- Nutrient label as rendered by `generate_markdown`:
`camel_case_splitter(nutrient).replace(' content', '')`. -/
def nutrient_label (nutrient : String) : String :=
  pyReplace (camel_case_splitter nutrient) " content" ""

/-- One line of the nutrition block:
`f"\t- {camel_case_splitter(nutrient).replace(' content', '')} {quantity}\n"`. -/
def nutrient_line (kv : String × String) : String :=
  "\t- " ++ nutrient_label kv.1 ++ " " ++ kv.2 ++ "\n"

/-- Nutrition block of `generate_markdown`: emitted only when the nutrient
mapping is non-empty (`if len(scraper.nutrients()) > 0`). -/
def nutritionBlock (nutrients : List (String × String)) : String :=
  if nutrients.length > 0 then
    "nutrition:\n" ++ joinList (nutrients.map nutrient_line)
  else ""

/-- Title selection of `generate_markdown`, line 111 of `recipe2md.py`:
`title = scraper.title() if name is None else name`. -/
def effective_title (name : Option String) (scraper_title : String) : String :=
  match name with
  | none => scraper_title
  | some n => n

/-- Embedding of `generate_markdown` from `recipe2md.py`.  The network
scrape is an external effect, so the function receives the scraper result
(`none` models `scrape_recipe` returning `None`); the Google translator is
an external text-transform collaborator, received as a function.  The
Python function additionally returns the scraper object itself, which is
dropped here: the claims concern the markdown content and the image
filename. -/
def generate_markdown (recipe_url : String) (name : Option String)
    (category : String) (extras : List String) (translate : Bool)
    (translator : String → String) (scraped : Option RecipeRecord) :
    String × String :=
  match scraped with
  | none => ("", "")
  | some scraper =>
    let title := effective_title name scraper.title
    let ingredients := scraper.ingredients
    let instructions := scraper.instructions_list
    let image_filename := format_title title ++ "." ++ image_file_extension scraper.image
    let title := if translate then translator title else title
    let ingredients := if translate then ingredients.map translator else ingredients
    let instructions := if translate then instructions.map translator else instructions
    let markdown_content :=
      pyDedent (headerRaw title category recipe_url image_filename
        scraper.yields scraper.total_time)
      ++ nutritionBlock scraper.nutrients
      ++ joinList (extras.map (fun extra => extra ++ ": x\n"))
      ++ "---\n\n"
      ++ joinList (ingredients.map (fun ingredient => "* " ++ ingredient ++ "\n"))
      ++ "\n"
      ++ pyJoin "\n\n---\n\n" (instructions.map (fun instruction => "> " ++ instruction))
    (markdown_content, image_filename)

/-- Embedding of the filename computation of `save_md_to_file` from
`recipe2md.py`: the markdown file stem is `format_title(scraper.title())`
when no name override is given and `format_title(name)` otherwise, and the
image is written to the `image_filename` passed in.  The file writes, the
image HTTP fetch and the constant `./local/` directory prefix are I/O and
are abstracted away. -/
def save_md_to_file (name : Option String) (scraper_title : String)
    (image_filename : String) : String × String :=
  let title := match name with
    | none => format_title scraper_title
    | some n => format_title n
  (title ++ ".md", image_filename)

/-- The stub recipe record of the end-to-end scenario: title `Pancakes`,
two ingredients, two instructions, empty nutrient mapping, image URL
`http://x/img.jpg`. -/
def pancakesRecord : RecipeRecord :=
  { title := "Pancakes"
    ingredients := ["1 cup flour", "2 eggs"]
    instructions_list := ["Mix.", "Cook."]
    nutrients := []
    yields := "4 servings"
    total_time := 15
    image := "http://x/img.jpg" }

/-- The same stub record with an image URL containing no `.` character. -/
def pancakesDotlessRecord : RecipeRecord :=
  { pancakesRecord with image := "httpx" }

/-! ### Helper lemmas -/

/-- Packing a valid code point and reading it back is the identity. -/
theorem toNat_charOfNat_of_valid (n : Nat) (h : n.isValidChar) :
    (Char.ofNat n).toNat = n := by
  rw [Char.ofNat, dif_pos h]
  rfl

/-- Code points below the surrogate range are valid. -/
theorem isValidChar_of_lt (n : Nat) (h : n < 0xD800) : n.isValidChar :=
  Or.inl h

/-- The lower-case map never produces an uppercase ASCII letter. -/
theorem isUpperAscii_pyCharLower (c : Char) :
    isUpperAscii (pyCharLower c) = false := by
  unfold pyCharLower
  split
  · rename_i h
    simp only [isUpperAscii, isUpperLatin1, Bool.or_eq_true, Bool.and_eq_true,
      decide_eq_true_eq] at h
    have hv : (c.toNat + 32).isValidChar := isValidChar_of_lt _ (by omega)
    simp only [isUpperAscii, toNat_charOfNat_of_valid _ hv, Bool.and_eq_false_iff,
      decide_eq_false_iff_not]
    omega
  · rename_i h
    simp only [isUpperAscii, isUpperLatin1, Bool.or_eq_true, Bool.and_eq_true,
      decide_eq_true_eq] at h
    simp only [isUpperAscii, Bool.and_eq_false_iff, decide_eq_false_iff_not]
    omega

/-- The lower-case map never produces an uppercase Latin-1 letter. -/
theorem isUpperLatin1_pyCharLower (c : Char) :
    isUpperLatin1 (pyCharLower c) = false := by
  unfold pyCharLower
  split
  · rename_i h
    simp only [isUpperAscii, isUpperLatin1, Bool.or_eq_true, Bool.and_eq_true,
      decide_eq_true_eq] at h
    have hv : (c.toNat + 32).isValidChar := isValidChar_of_lt _ (by omega)
    simp only [isUpperLatin1, toNat_charOfNat_of_valid _ hv, Bool.or_eq_false_iff,
      Bool.and_eq_false_iff, decide_eq_false_iff_not]
    omega
  · rename_i h
    simp only [isUpperAscii, isUpperLatin1, Bool.or_eq_true, Bool.and_eq_true,
      decide_eq_true_eq] at h
    simp only [isUpperLatin1, Bool.or_eq_false_iff, Bool.and_eq_false_iff,
      decide_eq_false_iff_not]
    omega

/-- Lower-casing a character does not change whether it is whitespace:
the map moves only uppercase letters, and both an uppercase letter and its
lower-case image lie outside Python's whitespace set. -/
theorem pyIsSpace_pyCharLower (c : Char) :
    pyIsSpace (pyCharLower c) = pyIsSpace c := by
  unfold pyCharLower
  split
  · rename_i h
    simp only [isUpperAscii, isUpperLatin1, Bool.or_eq_true, Bool.and_eq_true,
      decide_eq_true_eq] at h
    have hv : (c.toNat + 32).isValidChar := isValidChar_of_lt _ (by omega)
    simp only [pyIsSpace, pySpaceCodes, toNat_charOfNat_of_valid _ hv,
      List.mem_cons, List.not_mem_nil, or_false, decide_eq_decide]
    omega
  · rfl

/-- Splitting on a separator never yields the empty list of chunks. -/
theorem splitOnChar_ne_nil (sep : Char) (l : List Char) :
    splitOnChar sep l ≠ [] := by
  induction l with
  | nil => simp [splitOnChar]
  | cons c rest ih =>
    cases h : splitOnChar sep rest with
    | nil => exact absurd h ih
    | cons g gs =>
      by_cases hc : c = sep <;> simp [splitOnChar, h, hc]

/-- The last chunk of a character-split never contains the separator. -/
theorem getLastD_splitOnChar_all (sep : Char) (l : List Char) :
    ((splitOnChar sep l).getLastD []).all (fun c => c != sep) = true := by
  induction l with
  | nil => rfl
  | cons c rest ih =>
    simp only [splitOnChar]
    cases h : splitOnChar sep rest with
    | nil => exact absurd h (splitOnChar_ne_nil sep rest)
    | cons g gs =>
      rw [h] at ih
      by_cases hc : c = sep
      · simpa [hc, List.getLastD_cons] using ih
      · cases gs with
        | nil => simpa [hc, List.getLastD_cons] using ih
        | cons g' gs' => simpa [hc, List.getLastD_cons] using ih

/-- The file extension taken from an image URL contains no dot. -/
theorem image_file_extension_no_dot (image : String) :
    (image_file_extension image).data.all (fun c => c != '.') = true :=
  getLastD_splitOnChar_all '.' image.data

/-- Everything after the first character of a capitalized string has been
through the lower-case map, so no uppercase letter survives there. -/
theorem pyCapitalize_tail_no_upper (s : String) :
    ((pyCapitalize s).data.drop 1).all
      (fun c => !(isUpperAscii c || isUpperLatin1 c)) = true := by
  unfold pyCapitalize
  cases s.data with
  | nil => rfl
  | cons c rest =>
    simp [List.all_eq_true, isUpperAscii_pyCharLower, isUpperLatin1_pyCharLower]

/-- Unfolding of `generate_markdown` on a successful scrape: the document
is the dedented header followed by the nutrition block, the extras lines,
the closing front-matter delimiter, the bulleted ingredients, a blank
line, and the quote-prefixed instructions joined by horizontal rules; the
image filename is the formatted effective title with the URL-derived
extension. -/
theorem generate_markdown_some (recipe_url : String) (name : Option String)
    (category : String) (extras : List String) (translate : Bool)
    (translator : String → String) (scraper : RecipeRecord) :
    generate_markdown recipe_url name category extras translate translator
        (some scraper) =
      (pyDedent (headerRaw
          (if translate then translator (effective_title name scraper.title)
            else effective_title name scraper.title)
          category recipe_url
          (format_title (effective_title name scraper.title) ++ "."
            ++ image_file_extension scraper.image)
          scraper.yields scraper.total_time)
        ++ nutritionBlock scraper.nutrients
        ++ joinList (extras.map (fun extra => extra ++ ": x\n"))
        ++ "---\n\n"
        ++ joinList ((if translate then scraper.ingredients.map translator
              else scraper.ingredients).map
            (fun ingredient => "* " ++ ingredient ++ "\n"))
        ++ "\n"
        ++ pyJoin "\n\n---\n\n" ((if translate then scraper.instructions_list.map translator
              else scraper.instructions_list).map
            (fun instruction => "> " ++ instruction)),
       format_title (effective_title name scraper.title) ++ "."
         ++ image_file_extension scraper.image) := rfl

/-! ### Claim theorems -/

/-- C1, counterexample: on the stub Pancakes record with default metadata,
the synthesized image filename is not `pancakes.jpg` (the code's
`format_title` title-cases the stem instead of lower-casing it). -/
theorem C1_counterexample :
    (generate_markdown "http://x" none "" [] false id (some pancakesRecord)).2
      ≠ "pancakes.jpg" := by
  decide

set_option maxRecDepth 4000 in
/-- C1, amended: on the stub Pancakes record with default metadata the
synthesized document's image field (and returned image filename) reads
`Pancakes.jpg`, the ingredients section is exactly
`* 1 cup flour\n* 2 eggs\n`, and no nutrition block is emitted. -/
theorem C1_pancakes_document :
    generate_markdown "http://x" none "" [] false id (some pancakesRecord) =
      ("---\ntitle: Pancakes\ncategory: \nsource: http://x\nimage: Pancakes.jpg\nsize: 4 servings\ntime: 15 mins\n"
        ++ "---\n\n"
        ++ "* 1 cup flour\n* 2 eggs\n"
        ++ "\n"
        ++ "> Mix.\n\n---\n\n> Cook.",
       "Pancakes.jpg") := by
  decide

/-- C2, counterexample: `camel_case_splitter "ABCDef"` is not `"ABC def"`
(Python's `str.capitalize` lower-cases every character after the first). -/
theorem C2_counterexample : camel_case_splitter "ABCDef" ≠ "ABC def" := by
  decide

/-- C2, amended: `camel_case_splitter` splits before each
uppercase-then-lowercase run and before each run of consecutive uppercase
letters, then capitalizes the first character of the result and
lower-cases every subsequent character (acronym casing is not preserved):
`ABCDef` gives `Abc def`, `fatContentFDA` gives `Fat content fda`,
`proteinContent` gives `Protein content`, and no character after the
first of any output is an uppercase letter. -/
theorem C2_camel_case_splitter :
    camel_case_splitter "ABCDef" = "Abc def"
    ∧ camel_case_splitter "fatContentFDA" = "Fat content fda"
    ∧ camel_case_splitter "proteinContent" = "Protein content"
    ∧ ∀ word : String,
        (((camel_case_splitter word).data.drop 1).all
          (fun c => !(isUpperAscii c || isUpperLatin1 c))) = true := by
  refine ⟨by decide, by decide, by decide, fun word => ?_⟩
  unfold camel_case_splitter
  exact pyCapitalize_tail_no_upper _

/-- C3: `format_file_name` (the slugging rule) lower-cases the title and
replaces every whitespace character with a hyphen, acting independently on
each character and leaving non-whitespace, non-uppercase characters
unchanged; `Chocolate Cake` gives `chocolate-cake` and `Crème Brûlée`
gives `crème-brûlée`. -/
theorem C3_format_file_name_slugify :
    (∀ title : String,
      format_file_name title =
        ⟨title.data.map (fun c => if pyIsSpace c then '-' else pyCharLower c)⟩)
    ∧ format_file_name "Chocolate Cake" = "chocolate-cake"
    ∧ format_file_name "Crème Brûlée" = "crème-brûlée" := by
  refine ⟨fun title => ?_, by decide, by decide⟩
  unfold format_file_name
  refine congrArg String.mk ?_
  rw [List.map_map]
  refine List.map_congr_left (fun c _ => ?_)
  simp [Function.comp, pyIsSpace_pyCharLower]

/-- C4: on a record whose image URL contains no `.`, `generate_markdown`
silently returns an image filename whose extension is the whole URL
(`Pancakes.httpx`), raising no error — the code lacks the reportable
failure the specification requires. -/
theorem C4_dotless_image_url_no_error :
    (generate_markdown "http://x" none "" [] false id
      (some pancakesDotlessRecord)).2 = "Pancakes.httpx" := by
  decide

/-- C5: when extraction fails (the scraper collaborator returns no
record), `generate_markdown` returns an empty document and an empty image
filename; as a total Lean function it raises nothing. -/
theorem C5_failed_extraction_sentinel (recipe_url : String)
    (name : Option String) (category : String) (extras : List String)
    (translate : Bool) (translator : String → String) :
    generate_markdown recipe_url name category extras translate translator none
      = ("", "") := rfl

/-- C6, counterexample: with a provided but empty name the code uses the
empty string as the effective title (only `None` falls back to the record
title): the image filename becomes `.jpg` instead of `Pancakes.jpg`. -/
theorem C6_counterexample :
    (generate_markdown "http://x" (some "") "" [] false id
        (some pancakesRecord)).2 ≠ "Pancakes.jpg"
    ∧ (generate_markdown "http://x" (some "") "" [] false id
        (some pancakesRecord)).2 = ".jpg" := by
  exact ⟨by decide, by decide⟩

/-- C6, amended: the effective title used for the image filename and for
the persisted document filename equals `metadata.name` whenever a name is
provided — including a provided empty name — and equals the record title
only when no name is provided. -/
theorem C6_effective_title_selection (recipe_url : String) (category : String)
    (extras : List String) (translate : Bool) (translator : String → String)
    (scraper : RecipeRecord) (n : String) (image_filename : String) :
    (generate_markdown recipe_url (some n) category extras translate translator
        (some scraper)).2
      = format_title n ++ "." ++ image_file_extension scraper.image
    ∧ (generate_markdown recipe_url none category extras translate translator
        (some scraper)).2
      = format_title scraper.title ++ "." ++ image_file_extension scraper.image
    ∧ (save_md_to_file (some n) scraper.title image_filename).1
      = format_title n ++ ".md"
    ∧ (save_md_to_file none scraper.title image_filename).1
      = format_title scraper.title ++ ".md" :=
  ⟨rfl, rfl, rfl, rfl⟩

/-- C7: the synthesized document ends with the ingredients section — one
bullet line per (possibly translated) ingredient, in order — a blank line,
and the instructions section — one quote-prefixed block per instruction,
in order, joined by horizontal-rule delimiters; the rendered lists have
exactly as many entries as the record's ingredient and instruction
sequences. -/
theorem C7_ingredient_and_instruction_sections (recipe_url : String)
    (name : Option String) (category : String) (extras : List String)
    (translate : Bool) (translator : String → String)
    (scraper : RecipeRecord) :
    ∃ front : String,
      (generate_markdown recipe_url name category extras translate translator
          (some scraper)).1 =
        front
        ++ joinList ((if translate then scraper.ingredients.map translator
              else scraper.ingredients).map
            (fun ingredient => "* " ++ ingredient ++ "\n"))
        ++ "\n"
        ++ pyJoin "\n\n---\n\n" ((if translate then scraper.instructions_list.map translator
              else scraper.instructions_list).map
            (fun instruction => "> " ++ instruction))
      ∧ ((if translate then scraper.ingredients.map translator
            else scraper.ingredients).map
          (fun ingredient => "* " ++ ingredient ++ "\n")).length
          = scraper.ingredients.length
      ∧ ((if translate then scraper.instructions_list.map translator
            else scraper.instructions_list).map
          (fun instruction => "> " ++ instruction)).length
          = scraper.instructions_list.length := by
  refine ⟨pyDedent (headerRaw
      (if translate then translator (effective_title name scraper.title)
        else effective_title name scraper.title)
      category recipe_url
      (format_title (effective_title name scraper.title) ++ "."
        ++ image_file_extension scraper.image)
      scraper.yields scraper.total_time)
    ++ nutritionBlock scraper.nutrients
    ++ joinList (extras.map (fun extra => extra ++ ": x\n"))
    ++ "---\n\n", ?_, ?_, ?_⟩
  · rw [generate_markdown_some]
  · cases translate <;> simp
  · cases translate <;> simp

/-- C8: the image filename synthesized by `generate_markdown` and the
markdown filename produced by `save_md_to_file` share their stem — the
formatted effective title — for the same name override (or none), the
former ending in the dot-free URL-derived extension and the latter in
`.md`. -/
theorem C8_image_and_document_share_stem (recipe_url : String)
    (name : Option String) (category : String) (extras : List String)
    (translate : Bool) (translator : String → String)
    (scraper : RecipeRecord) :
    ∃ stem ext : String,
      (generate_markdown recipe_url name category extras translate translator
          (some scraper)).2 = stem ++ "." ++ ext
      ∧ (save_md_to_file name scraper.title
          (generate_markdown recipe_url name category extras translate translator
            (some scraper)).2).1 = stem ++ ".md"
      ∧ ext.data.all (fun c => c != '.') = true := by
  refine ⟨format_title (effective_title name scraper.title),
    image_file_extension scraper.image, rfl, ?_, image_file_extension_no_dot _⟩
  cases name <;> rfl

/-- C9: document synthesis is deterministic — two calls of the embedded
`generate_markdown` on identical inputs (with the same deterministic
translation capability) yield identical document content and image
filenames. -/
theorem C9_generate_markdown_deterministic (recipe_url : String)
    (name : Option String) (category : String) (extras : List String)
    (translate : Bool) (translator : String → String)
    (scraped : Option RecipeRecord) :
    generate_markdown recipe_url name category extras translate translator scraped
      = generate_markdown recipe_url name category extras translate translator
          scraped := rfl

/-- C10: whenever the nutrient mapping is non-empty, the document carries a
nutrition block with one line per nutrient whose label is the camel-case
split of the key with every occurrence of the literal substring
` content` removed; in particular the key `fatContent` renders with label
`Fat`. -/
theorem C10_nutrient_label_strips_content (recipe_url : String)
    (name : Option String) (category : String) (extras : List String)
    (translate : Bool) (translator : String → String)
    (title yields image : String) (ingredients instructions : List String)
    (total_time : Nat) (k v : String) (rest : List (String × String)) :
    ∃ front back : String,
      (generate_markdown recipe_url name category extras translate translator
          (some ⟨title, ingredients, instructions, (k, v) :: rest, yields,
            total_time, image⟩)).1 =
        front
        ++ ("nutrition:\n"
            ++ joinList (((k, v) :: rest).map (fun kv =>
                "\t- " ++ pyReplace (camel_case_splitter kv.1) " content" ""
                  ++ " " ++ kv.2 ++ "\n")))
        ++ back
      ∧ pyReplace (camel_case_splitter "fatContent") " content" "" = "Fat" := by
  have hnut : nutritionBlock ((k, v) :: rest)
      = "nutrition:\n" ++ joinList (((k, v) :: rest).map (fun kv =>
          "\t- " ++ pyReplace (camel_case_splitter kv.1) " content" ""
            ++ " " ++ kv.2 ++ "\n")) := by
    rw [nutritionBlock, if_pos (by simp)]
    rfl
  refine ⟨pyDedent (headerRaw
      (if translate then translator (effective_title name title)
        else effective_title name title)
      category recipe_url
      (format_title (effective_title name title) ++ "."
        ++ image_file_extension image)
      yields total_time),
    joinList (extras.map (fun extra => extra ++ ": x\n"))
    ++ "---\n\n"
    ++ joinList ((if translate then ingredients.map translator
          else ingredients).map (fun i => "* " ++ i ++ "\n"))
    ++ "\n"
    ++ pyJoin "\n\n---\n\n" ((if translate then instructions.map translator
          else instructions).map (fun i => "> " ++ i)), ?_, by decide⟩
  simp only [generate_markdown_some]
  simp only [hnut, String.append_assoc]

end RecipeToMd
